import Mathlib

/-!
Verification of the discovery-and-health pipeline of `src/generator.py`
(cloudflare-nav-generator): zone/record retrieval with pagination, record
filtering by prefix rules, HTTP reachability probing with sentinel codes,
and grouping of the surviving link entries by zone.

The Python source is embedded shallowly: Python `str` is Lean `String`,
Python sets of prefixes are lists (every use is an order-independent
membership / any-match test), HTTP and network effects are passed in as
explicit oracles (page-fetch functions, a probe function), and the
non-deterministic completion order of the thread pool is an explicit
`order : List Nat` parameter selecting worklist items in completion order.
-/

namespace CFNav

/-- Python `s.startswith(pre)`: `pre` is a prefix of the character sequence
of `s`. -/
def startswith (s pre : String) : Bool := pre.data.isPrefixOf s.data

/-- One DNS record as consumed by the generator: the keys `name`, `type`,
`content` of the Cloudflare record object that the script reads. -/
structure DNSRecord where
  name : String
  type : String
  content : String
deriving DecidableEq, Repr

/-- One zone as consumed by the generator: the keys `id`, `name`. -/
structure Zone where
  id : String
  name : String
deriving DecidableEq, Repr

/-- Worklist item built in `main` stage 2: a record tagged with its zone's
name (`{'zone_name': ..., 'record': ...}`). -/
structure RecordData where
  zone_name : String
  record : DNSRecord
deriving DecidableEq, Repr

/-- The dict built by `process_record_status` for a surviving record. -/
structure LinkData where
  zone_name : String
  full_name : String
  type : String
  content : String
  status_code : Nat
  test_url : String
deriving DecidableEq, Repr

/-- The configuration the script loads from `.env`: `SHOW_RECORD_CONTENT`,
`SHOW_RECORD_STATUS`, `SKIP_DETECTION_PREFIXES`, `HIDE_RECORD_PREFIXES`
(the latter two already split on commas and stripped). -/
structure Config where
  show_record_content : Bool
  show_record_status : Bool
  skip_detection_prefixes : List String
  hide_record_prefixes : List String
deriving DecidableEq, Repr

/-- Source: `ALLOWED_TYPES = {"A", "CNAME", "AAAA"}`. -/
def ALLOWED_TYPES : List String := ["A", "CNAME", "AAAA"]

/-- Source: `EXCLUDE_PREFIXES = {"_acme-challenge", "mail", "ftp", "localhost"}`. -/
def EXCLUDE_PREFIXES : List String := ["_acme-challenge", "mail", "ftp", "localhost"]

/-- Source `is_valid_link_record`: type must be in `ALLOWED_TYPES`, and the
name must not start with any exclude- or hide-prefix followed by `'.'`. -/
def is_valid_link_record (hide_record_prefixes : List String) (record : DNSRecord) : Bool :=
  if !(ALLOWED_TYPES.contains record.type) then false
  else if EXCLUDE_PREFIXES.any (fun p => startswith record.name (p ++ ".")) then false
  else if hide_record_prefixes.any (fun p => startswith record.name (p ++ ".")) then false
  else true

/-- Outcome of the `requests.head` call inside `check_url_status`: either an
HTTP response carrying a status code, or a raised `RequestException`
(timeout, connection failure, protocol error). -/
inductive ProbeOutcome where
  | success (status_code : Nat)
  | failure
deriving DecidableEq, Repr

/-- Source `check_url_status`: return the response's status code verbatim;
on `RequestException` return `999`. -/
def check_url_status (outcome : ProbeOutcome) : Nat :=
  match outcome with
  | .success status_code => status_code
  | .failure => 999

/-- Sentinel the source stores for a probe that was not performed. -/
def SKIPPED : Nat := 888

/-- Sentinel `check_url_status` returns for a network-level failure. -/
def NETWORK_ERROR : Nat := 999

/-- CSS class chosen by `generate_links_html` for a status code. -/
def statusClassOf (status_code : Nat) : String :=
  if 200 ≤ status_code ∧ status_code < 400 then "status-ok"
  else if status_code = 888 then "status-skipped"
  else if status_code = 999 then "status-net-error"
  else "status-error"

/-- Status label chosen by `generate_links_html` for a status code. -/
def statusTextOf (status_code : Nat) : String :=
  if 200 ≤ status_code ∧ status_code < 400 then s!"在线: {status_code}"
  else if status_code = 888 then "跳过检测"
  else if status_code = 999 then "连接失败"
  else s!"错误: {status_code}"

/-- Keys of the `defaultdict(list)` built by `generate_links_html`, in the
first-encounter (insertion) order of Python dicts. -/
def groupKeys (dns_data : List LinkData) : List String :=
  dns_data.foldl
    (fun acc l => if acc.contains l.zone_name then acc else acc ++ [l.zone_name]) []

/-- Grouping step of `generate_links_html`: `grouped_data[link['zone_name']]
.append(link)` over the input in order, i.e. zone keys in first-encounter
order, each holding its links in input order. -/
def grouped_data (dns_data : List LinkData) : List (String × List LinkData) :=
  (groupKeys dns_data).map (fun z => (z, dns_data.filter (fun l => l.zone_name == z)))

/-- Loop of `process_record_status` over `SKIP_DETECTION_PREFIXES`:
does `full_name` start with some prefix of the list followed by `'.'`? -/
def skipMatches (skip_detection_prefixes : List String) (full_name : String) : Bool :=
  skip_detection_prefixes.any (fun p => startswith full_name (p ++ "."))

/-- Source `process_record_status`, with the probe oracle explicit: drop the
record when `is_valid_link_record` rejects it; otherwise set the status to
`888` when status checking is off or a skip-detection prefix matches, and to
`check_url_status`'s answer (the `probe` oracle) otherwise. -/
def process_record_status (cfg : Config) (probe : String → Nat) (record_data : RecordData) :
    Option LinkData :=
  if !(is_valid_link_record cfg.hide_record_prefixes record_data.record) then none
  else
    let full_name := record_data.record.name
    let test_url := "https://" ++ full_name
    let perform_status_check := cfg.show_record_status
    let should_skip_detection_by_config := skipMatches cfg.skip_detection_prefixes full_name
    let status_code :=
      if !perform_status_check || should_skip_detection_by_config then 888
      else probe test_url
    some { zone_name := record_data.zone_name, full_name := full_name,
           type := record_data.record.type, content := record_data.record.content,
           status_code := status_code, test_url := test_url }

/-- Condition under which `process_record_status` reaches the
`check_url_status(test_url)` call for a worklist item: the record survives
the filter, status display is on, and no skip-detection prefix matches. -/
def probeInvoked (cfg : Config) (record_data : RecordData) : Bool :=
  is_valid_link_record cfg.hide_record_prefixes record_data.record
    && (cfg.show_record_status && !(skipMatches cfg.skip_detection_prefixes record_data.record.name))

/-- Response envelope of one page of a Cloudflare list API call, as the
fields `get_cloudflare_data` reads: `success`, `errors`, `result`,
`result_info.total_pages`. -/
structure Envelope (α : Type) where
  success : Bool
  errors : String
  result : List α
  total_pages : Nat
deriving DecidableEq, Repr

/-- Error value of `get_cloudflare_data`'s failure return `(None, err)`:
either `str(e)` of a raised exception, or the envelope's `errors` payload. -/
inductive FetchError where
  | requestException (msg : String)
  | envelope (errors : String)
deriving DecidableEq, Repr

/-- Pagination loop of `get_cloudflare_data` (`for page in range(2,
total_pages + 1)`): fetch each further page, extend the accumulator with its
`result` list; a raised exception aborts the whole call. The loop reads no
`success` field. -/
def extendPages {α : Type} (fetch : Nat → Except String (Envelope α)) :
    List Nat → List α → Except FetchError (List α)
  | [], all_results => .ok all_results
  | page :: pages, all_results =>
    match fetch page with
    | .error e => .error (.requestException e)
    | .ok data => extendPages fetch pages (all_results ++ data.result)

/-- Source `get_cloudflare_data` with the HTTP layer as a page-indexed
oracle (`fetch page` is the parsed envelope of the GET for that page, or the
message of the raised exception): check `success` of page 1 only, read
`total_pages` from page 1, then run the pagination loop. -/
def get_cloudflare_data {α : Type} (fetch : Nat → Except String (Envelope α)) :
    Except FetchError (List α) :=
  match fetch 1 with
  | .error e => .error (.requestException e)
  | .ok data =>
    if !data.success then .error (.envelope data.errors)
    else extendPages fetch (List.range' 2 (data.total_pages - 1)) data.result

/-- Source `get_all_zones`: one `get_cloudflare_data` call on the zones
endpoint (the Python version returns `None` on error after logging;
the error is kept here so callers can model `if not zones`). -/
def get_all_zones (fetchZonePage : Nat → Except String (Envelope Zone)) :
    Except FetchError (List Zone) :=
  get_cloudflare_data fetchZonePage

/-- Source `get_dns_records`: one `get_cloudflare_data` call on the
records endpoint of the given zone. -/
def get_dns_records {α : Type} (fetchRecordPage : String → Nat → Except String (Envelope α))
    (zone_id : String) : Except FetchError (List α) :=
  get_cloudflare_data (fetchRecordPage zone_id)

/-- HTML of one link item, as assembled by `generate_links_html` (the
insignificant indentation whitespace of the source's f-string templates is
elided). -/
def itemHtml (cfg : Config) (link : LinkData) : String :=
  let full_url := "https://" ++ link.full_name
  let content_html :=
    if cfg.show_record_content then
      "<p>指向: " ++ link.content ++ " (" ++ link.type ++ ")</p>"
    else ""
  let status_html :=
    if cfg.show_record_status then
      "<div class=\"status-area\"><span class=\"status-display "
        ++ statusClassOf link.status_code ++ "\">" ++ statusTextOf link.status_code
        ++ "</span><span class=\"status-test-url\" title=\"检测URL\">("
        ++ link.test_url ++ ")</span></div>"
    else ""
  "<li class=\"link-item\"><a href=\"" ++ full_url ++ "\" target=\"_blank\" title=\""
    ++ full_url ++ "\">" ++ link.full_name ++ "</a>" ++ content_html ++ status_html ++ "</li>"

/-- Source `generate_links_html`: group the links by zone name, then emit a
zone-group block per key holding its items in order. -/
def generate_links_html (cfg : Config) (dns_data : List LinkData) : String :=
  let blocks := (grouped_data dns_data).map (fun zl =>
    "<div class=\"zone-group\"><h2>🌐 " ++ zl.1 ++ "</h2><ul class=\"link-list\">"
      ++ String.join ((zl.2.map (itemHtml cfg)))
      ++ "</ul></div>")
  String.join blocks

/-- Stage 2 of `main`: for each zone in order, fetch its records and append
`{'zone_name': ..., 'record': ...}` items; a zone whose fetch failed (or
returned an empty list, `if records:`) contributes nothing. -/
def buildWorklist (zones : List Zone)
    (recordFetch : String → Except FetchError (List DNSRecord)) : List RecordData :=
  zones.flatMap (fun zone =>
    match recordFetch zone.id with
    | .ok records => records.map (fun r => { zone_name := zone.name, record := r })
    | .error _ => [])

/-- Warning `get_dns_records` logs for a zone whose record fetch failed. -/
def recordFetchWarning (zone_id : String) (e : FetchError) : String :=
  let msg := match e with
    | .requestException m => m
    | .envelope errs => errs
  s!"获取 Zone {zone_id} 的 DNS 记录失败: {msg}"

/-- Warnings logged during stage 2 of `main`: one per zone whose record
fetch failed. -/
def mainWarnings (zones : List Zone)
    (recordFetch : String → Except FetchError (List DNSRecord)) : List String :=
  zones.filterMap (fun zone =>
    match recordFetch zone.id with
    | .ok _ => none
    | .error e => some (recordFetchWarning zone.id e))

/-- Completion order of the thread pool made explicit: `order` lists
worklist indices in the order `concurrent.futures.as_completed` yields their
futures (a run of the source realizes some permutation of the indices). -/
def scheduleList (worklist : List RecordData) (order : List Nat) : List RecordData :=
  order.filterMap (fun i => worklist[i]?)

/-- Collection loop of `main` stage 3: each completed future's
`process_record_status` result is appended when it is not `None`. -/
def collectLinks (cfg : Config) (probe : String → Nat) (worklist : List RecordData) :
    List LinkData :=
  worklist.filterMap (process_record_status cfg probe)

/-- Links accumulated by a run of `main` whose pool completed the worklist
in the given order. -/
def runLinks (cfg : Config) (probe : String → Nat) (zones : List Zone)
    (recordFetch : String → Except FetchError (List DNSRecord)) (order : List Nat) :
    List LinkData :=
  collectLinks cfg probe (scheduleList (buildWorklist zones recordFetch) order)

/-- GroupedResult of a run of `main` over the given zones: the grouping
`generate_links_html` performs on the accumulated links. -/
def runGroups (cfg : Config) (probe : String → Nat) (zones : List Zone)
    (recordFetch : String → Except FetchError (List DNSRecord)) (order : List Nat) :
    List (String × List LinkData) :=
  grouped_data (runLinks cfg probe zones recordFetch order)

/-- Guard `if not zones: return` at the top of `main`: a failed fetch
(`None`) or an empty zone list aborts the run. -/
def zonesOrAbort (zoneResult : Except FetchError (List Zone)) : Option (List Zone) :=
  match zoneResult with
  | .error _ => none
  | .ok zones => if zones.isEmpty then none else some zones

/-- Source `main`, producing the GroupedResult handed to the Renderer, or
`none` when the run aborts at the zone-list stage (no output document is
written). -/
def mainRun (cfg : Config) (fetchZonePage : Nat → Except String (Envelope Zone))
    (fetchRecordPage : String → Nat → Except String (Envelope DNSRecord))
    (probe : String → Nat) (order : List Nat) :
    Option (List (String × List LinkData)) :=
  match zonesOrAbort (get_all_zones fetchZonePage) with
  | none => none
  | some zones =>
    some (runGroups cfg probe zones (get_dns_records fetchRecordPage) order)

/-- Test URLs for which a run of `main` reaches the `check_url_status` call
(instrumentation of the probe call sites). -/
def mainProbedUrls (cfg : Config) (fetchZonePage : Nat → Except String (Envelope Zone))
    (fetchRecordPage : String → Nat → Except String (Envelope DNSRecord)) : List String :=
  match zonesOrAbort (get_all_zones fetchZonePage) with
  | none => []
  | some zones =>
    ((buildWorklist zones (get_dns_records fetchRecordPage)).filter (probeInvoked cfg)).map
      (fun rd => "https://" ++ rd.record.name)

/-- Zone ids for which a run of `main` reaches the `get_dns_records` call
(instrumentation of stage 2). -/
def mainFetchedZoneIds (fetchZonePage : Nat → Except String (Envelope Zone)) : List String :=
  match zonesOrAbort (get_all_zones fetchZonePage) with
  | none => []
  | some zones => zones.map Zone.id

/-- Did a fetch operation succeed (its Python return value is not `None`)? -/
def fetchOk {α : Type} : Except FetchError α → Bool
  | .ok _ => true
  | .error _ => false

/-- Configuration fixture: both display options on, no configured
skip-detection or hide prefixes. -/
def cfgPlain : Config := ⟨true, true, [], []⟩

/-- Fixture: a single zone. -/
def zonesOne : List Zone := [⟨"z1", "example.com"⟩]

/-- Fixture: a record fetch answering two A records for every zone. -/
def rfTwo : String → Except FetchError (List DNSRecord) :=
  fun _ => .ok [⟨"a.example.com", "A", "1.2.3.4"⟩, ⟨"b.example.com", "A", "1.2.3.5"⟩]

/-- Fixture: a probe oracle answering 200 for every URL. -/
def probe200 : String → Nat := fun _ => 200

/-- Fixture: a two-page listing whose first page succeeds with one record
and whose second page carries a failure envelope (`success: false`). -/
def fetchPageTwoFails : Nat → Except String (Envelope DNSRecord) :=
  fun page =>
    if page = 1 then .ok ⟨true, "", [⟨"a.example.com", "A", "1.2.3.4"⟩], 2⟩
    else if page = 2 then .ok ⟨false, "Invalid request on page 2", [], 2⟩
    else .error "unreached"

/-- Fixture: two zones, the first of which will have a failing record
fetch under `rfFirstFails`. -/
def zonesTwo : List Zone := [⟨"idA", "a.com"⟩, ⟨"idB", "b.com"⟩]

/-- Fixture: record fetch failing for zone id `idA` and succeeding for
every other zone. -/
def rfFirstFails : String → Except FetchError (List DNSRecord) :=
  fun zone_id =>
    if zone_id = "idA" then .error (.requestException "connection timed out")
    else .ok [⟨"www.b.com", "A", "9.9.9.9"⟩]

/-!  Helper lemmas (shared across claims). -/

/-- Unfolded Boolean form of the early-return chain of
`is_valid_link_record`. -/
theorem is_valid_eq (hide_record_prefixes : List String) (r : DNSRecord) :
    is_valid_link_record hide_record_prefixes r
      = (ALLOWED_TYPES.contains r.type
          && !(EXCLUDE_PREFIXES.any (fun p => startswith r.name (p ++ ".")))
          && !(hide_record_prefixes.any (fun p => startswith r.name (p ++ ".")))) := by
  simp only [is_valid_link_record]
  cases h1 : ALLOWED_TYPES.contains r.type <;>
    cases h2 : EXCLUDE_PREFIXES.any (fun p => startswith r.name (p ++ ".")) <;>
    cases h3 : hide_record_prefixes.any (fun p => startswith r.name (p ++ ".")) <;>
    simp [h1, h2, h3]

/-- Membership in the key-accumulating fold of `groupKeys`. -/
theorem mem_foldl_groupKeys (links : List LinkData) (acc : List String) (z : String) :
    (z ∈ links.foldl
        (fun acc l => if acc.contains l.zone_name then acc else acc ++ [l.zone_name]) acc)
      ↔ z ∈ acc ∨ z ∈ links.map LinkData.zone_name := by
  induction links generalizing acc with
  | nil => simp
  | cons l ls ih =>
    simp only [List.foldl_cons]
    by_cases h : acc.contains l.zone_name
    · rw [if_pos h, ih]
      have hmem : l.zone_name ∈ acc := by simpa using h
      simp only [List.map_cons, List.mem_cons]
      constructor
      · rintro (h1 | h1)
        · exact Or.inl h1
        · exact Or.inr (Or.inr h1)
      · rintro (h1 | h1 | h1)
        · exact Or.inl h1
        · exact Or.inl (h1 ▸ hmem)
        · exact Or.inr h1
    · rw [if_neg h, ih]
      simp only [List.mem_append, List.mem_singleton, List.map_cons, List.mem_cons]
      tauto

/-- Group keys are exactly the zone names occurring among the links. -/
theorem mem_groupKeys (links : List LinkData) (z : String) :
    z ∈ groupKeys links ↔ ∃ l ∈ links, l.zone_name = z := by
  unfold groupKeys
  rw [mem_foldl_groupKeys]
  simp

/-- Zones whose record fetch failed contribute nothing to the worklist:
filtering them out of the zone list leaves the worklist unchanged. -/
theorem buildWorklist_filter_ok (zones : List Zone)
    (recordFetch : String → Except FetchError (List DNSRecord)) :
    buildWorklist (zones.filter (fun z => fetchOk (recordFetch z.id))) recordFetch
      = buildWorklist zones recordFetch := by
  induction zones with
  | nil => rfl
  | cons z zs ih =>
    simp only [buildWorklist] at ih ⊢
    cases h : recordFetch z.id with
    | ok records =>
      have hf : List.filter (fun w => fetchOk (recordFetch w.id)) (z :: zs)
          = z :: List.filter (fun w => fetchOk (recordFetch w.id)) zs := by
        simp [List.filter_cons, h, fetchOk]
      rw [hf, List.flatMap_cons, List.flatMap_cons, ih]
    | error e =>
      have hf : List.filter (fun w => fetchOk (recordFetch w.id)) (z :: zs)
          = List.filter (fun w => fetchOk (recordFetch w.id)) zs := by
        simp [List.filter_cons, h, fetchOk]
      rw [hf, List.flatMap_cons, ih]
      simp [h]

/-!  Claim theorems. -/

/-- C1: a DNS record passes `is_valid_link_record` iff its type is in
{A, AAAA, CNAME} and its fully-qualified name starts with no exclude-prefix
and no hide-prefix followed by `'.'`; in particular the exclude-prefix
`"mail"` excludes `mail.example.com` but not `mailer.example.com`, whose
name merely contains `mail` away from a label boundary. -/
theorem c1_filter_inclusion_iff (hide_record_prefixes : List String) (r : DNSRecord) :
    (is_valid_link_record hide_record_prefixes r = true ↔
      (r.type ∈ ALLOWED_TYPES
        ∧ (∀ p ∈ EXCLUDE_PREFIXES, startswith r.name (p ++ ".") = false)
        ∧ (∀ p ∈ hide_record_prefixes, startswith r.name (p ++ ".") = false)))
    ∧ is_valid_link_record [] ⟨"mail.example.com", "A", "1.2.3.4"⟩ = false
    ∧ is_valid_link_record [] ⟨"mailer.example.com", "A", "1.2.3.4"⟩ = true := by
  refine ⟨?_, by decide, by decide⟩
  simp [is_valid_eq, List.any_eq_true, and_assoc]

/-- C2 counterexample: a probe response carrying the (non-standard) HTTP
status 888, which is outside [200,400), is rendered with the skipped class,
not the error class — refuting "any other HTTP status ... is classified
error carrying the literal status code". -/
theorem c2_counterexample :
    (¬ (200 ≤ 888 ∧ 888 < 400))
    ∧ statusClassOf (check_url_status (.success 888)) ≠ "status-error"
    ∧ statusClassOf (check_url_status (.success 888)) = "status-skipped" := by
  decide

/-- C2 (amended): an HTTP status in [200,400) is classified reachable with
the literal code (in particular 200 and 399); any other HTTP status other
than the sentinel values 888 and 999 — in particular exactly 400 — is
classified error with the literal code; a network failure yields the
sentinel 999 and is classified as a connection failure. -/
theorem c2_probe_classification (s : Nat) :
    (200 ≤ s → s < 400 →
      statusClassOf (check_url_status (.success s)) = "status-ok"
        ∧ statusTextOf (check_url_status (.success s)) = s!"在线: {s}")
    ∧ ((s < 200 ∨ 400 ≤ s) → s ≠ 888 → s ≠ 999 →
      statusClassOf (check_url_status (.success s)) = "status-error"
        ∧ statusTextOf (check_url_status (.success s)) = s!"错误: {s}")
    ∧ check_url_status .failure = NETWORK_ERROR
    ∧ statusClassOf (check_url_status .failure) = "status-net-error"
    ∧ statusClassOf 200 = "status-ok" ∧ statusClassOf 399 = "status-ok"
    ∧ statusClassOf 400 = "status-error" := by
  refine ⟨?_, ?_, by decide, by decide, by decide, by decide, by decide⟩
  · intro h1 h2
    constructor <;> simp [check_url_status, statusClassOf, statusTextOf, h1, h2]
  · intro h h888 h999
    have hnot : ¬ (200 ≤ s ∧ s < 400) := by omega
    constructor <;> simp [check_url_status, statusClassOf, statusTextOf, hnot, h888, h999]

/-- Witness for `c2_probe_classification` at statuses 204 and 500. -/
theorem c2_probe_classification_witness :
    statusClassOf (check_url_status (.success 204)) = "status-ok"
    ∧ statusClassOf (check_url_status (.success 500)) = "status-error" :=
  ⟨((c2_probe_classification 204).1 (by decide) (by decide)).1,
   ((c2_probe_classification 500).2.1 (by decide) (by decide) (by decide)).1⟩

/-- C6 counterexample: `check_url_status` returns the response status
verbatim, so a probe that succeeds with the non-standard status 999 (or
888) produces a status code equal to the NETWORK_ERROR (resp. SKIPPED)
sentinel — refuting "no successful probe can produce a status code equal to
either sentinel". -/
theorem c6_counterexample :
    check_url_status (.success 999) = NETWORK_ERROR
    ∧ check_url_status (.success 888) = SKIPPED := by
  decide

/-- C6 (amended): the sentinels 888 and 999 differ from each other, and a
successful probe whose status lies in the standard HTTP range [100,600)
can produce neither sentinel; only a (non-standard) response status equal
to a sentinel value collides with it. -/
theorem c6_sentinels_distinguishable (s : Nat) (h1 : 100 ≤ s) (h2 : s < 600) :
    SKIPPED ≠ NETWORK_ERROR
    ∧ check_url_status (.success s) ≠ SKIPPED
    ∧ check_url_status (.success s) ≠ NETWORK_ERROR := by
  refine ⟨by decide, ?_, ?_⟩ <;> simp [check_url_status, SKIPPED, NETWORK_ERROR] <;> omega

/-- Witness for `c6_sentinels_distinguishable` at status 200. -/
theorem c6_sentinels_distinguishable_witness :
    SKIPPED ≠ NETWORK_ERROR
    ∧ check_url_status (.success 200) ≠ SKIPPED
    ∧ check_url_status (.success 200) ≠ NETWORK_ERROR :=
  c6_sentinels_distinguishable 200 (by decide) (by decide)

/-- C3: a record that passes inclusion and whose name matches a
skip-detection prefix at a label boundary gets status exactly 888, the
probe oracle is never consulted for it (the result is the same for any two
oracles), and the skip-detection prefix list has no effect on whether the
record is included. -/
theorem c3_skip_prefix_bypasses_probe (cfg : Config) (p1 p2 : String → Nat)
    (rd : RecordData)
    (hvalid : is_valid_link_record cfg.hide_record_prefixes rd.record = true)
    (hskip : skipMatches cfg.skip_detection_prefixes rd.record.name = true) :
    (process_record_status cfg p1 rd).map LinkData.status_code = some SKIPPED
    ∧ process_record_status cfg p1 rd = process_record_status cfg p2 rd
    ∧ (∀ skips2, (process_record_status { cfg with skip_detection_prefixes := skips2 } p1 rd).isSome
        = (process_record_status cfg p1 rd).isSome) := by
  refine ⟨?_, ?_, ?_⟩
  · simp [process_record_status, hvalid, hskip, SKIPPED]
  · simp [process_record_status, hvalid, hskip]
  · intro skips2
    simp [process_record_status, hvalid]

/-- Witness for `c3_skip_prefix_bypasses_probe`: skip-detection prefix
`"test"`, record `test.example.com`, two probe oracles answering 200 and
500. -/
theorem c3_skip_prefix_bypasses_probe_witness :
    (process_record_status ⟨true, true, ["test"], []⟩ (fun _ => 200)
        ⟨"example.com", ⟨"test.example.com", "A", "1.2.3.4"⟩⟩).map LinkData.status_code
      = some SKIPPED
    ∧ process_record_status ⟨true, true, ["test"], []⟩ (fun _ => 200)
        ⟨"example.com", ⟨"test.example.com", "A", "1.2.3.4"⟩⟩
      = process_record_status ⟨true, true, ["test"], []⟩ (fun _ => 500)
        ⟨"example.com", ⟨"test.example.com", "A", "1.2.3.4"⟩⟩
    ∧ (∀ skips2,
        (process_record_status { (⟨true, true, ["test"], []⟩ : Config) with
            skip_detection_prefixes := skips2 } (fun _ => 200)
          ⟨"example.com", ⟨"test.example.com", "A", "1.2.3.4"⟩⟩).isSome
        = (process_record_status ⟨true, true, ["test"], []⟩ (fun _ => 200)
          ⟨"example.com", ⟨"test.example.com", "A", "1.2.3.4"⟩⟩).isSome) :=
  c3_skip_prefix_bypasses_probe ⟨true, true, ["test"], []⟩ (fun _ => 200) (fun _ => 500)
    ⟨"example.com", ⟨"test.example.com", "A", "1.2.3.4"⟩⟩ (by decide) (by decide)

/-- C9: with `SHOW_RECORD_STATUS = False`, every record that passes
inclusion gets status exactly 888 — the very sentinel used for
skip-detection matches — the probe oracle is never consulted, and for a
record that also matches a skip-detection prefix the produced entry is
identical to the one produced with status display enabled, so the emitted
data cannot tell the two cases apart. -/
theorem c9_status_display_disabled (cfg : Config) (p1 p2 : String → Nat)
    (rd : RecordData)
    (hshow : cfg.show_record_status = false)
    (hvalid : is_valid_link_record cfg.hide_record_prefixes rd.record = true) :
    (process_record_status cfg p1 rd).map LinkData.status_code = some SKIPPED
    ∧ process_record_status cfg p1 rd = process_record_status cfg p2 rd
    ∧ (skipMatches cfg.skip_detection_prefixes rd.record.name = true →
        process_record_status { cfg with show_record_status := true } p1 rd
          = process_record_status cfg p1 rd) := by
  refine ⟨?_, ?_, ?_⟩
  · simp [process_record_status, hvalid, hshow, SKIPPED]
  · simp [process_record_status, hvalid, hshow]
  · intro hskip
    simp [process_record_status, hvalid, hshow, hskip]

/-- Witness for `c9_status_display_disabled`: status display off,
skip-detection prefix `"test"`, record `test.example.com`. -/
theorem c9_status_display_disabled_witness :
    (process_record_status ⟨true, false, ["test"], []⟩ (fun _ => 200)
        ⟨"example.com", ⟨"test.example.com", "A", "1.2.3.4"⟩⟩).map LinkData.status_code
      = some SKIPPED
    ∧ process_record_status ⟨true, false, ["test"], []⟩ (fun _ => 200)
        ⟨"example.com", ⟨"test.example.com", "A", "1.2.3.4"⟩⟩
      = process_record_status ⟨true, false, ["test"], []⟩ (fun _ => 500)
        ⟨"example.com", ⟨"test.example.com", "A", "1.2.3.4"⟩⟩
    ∧ (skipMatches (["test"] : List String) "test.example.com" = true →
        process_record_status { (⟨true, false, ["test"], []⟩ : Config) with
            show_record_status := true } (fun _ => 200)
          ⟨"example.com", ⟨"test.example.com", "A", "1.2.3.4"⟩⟩
        = process_record_status ⟨true, false, ["test"], []⟩ (fun _ => 200)
          ⟨"example.com", ⟨"test.example.com", "A", "1.2.3.4"⟩⟩) :=
  c9_status_display_disabled ⟨true, false, ["test"], []⟩ (fun _ => 200) (fun _ => 500)
    ⟨"example.com", ⟨"test.example.com", "A", "1.2.3.4"⟩⟩ rfl (by decide)

/-- C7: when the initial zone-list fetch fails, `main` aborts: no grouped
result or output document is produced, no zone's records are fetched, and
no probe is issued. -/
theorem c7_zone_list_failure_aborts (cfg : Config) (err : FetchError)
    (fetchZonePage : Nat → Except String (Envelope Zone))
    (fetchRecordPage : String → Nat → Except String (Envelope DNSRecord))
    (probe : String → Nat) (order : List Nat)
    (hfail : get_all_zones fetchZonePage = .error err) :
    mainRun cfg fetchZonePage fetchRecordPage probe order = none
    ∧ mainProbedUrls cfg fetchZonePage fetchRecordPage = []
    ∧ mainFetchedZoneIds fetchZonePage = [] := by
  refine ⟨?_, ?_, ?_⟩ <;>
    simp [mainRun, mainProbedUrls, mainFetchedZoneIds, zonesOrAbort, hfail]

/-- Witness for `c7_zone_list_failure_aborts`: every zone-list page request
times out. -/
theorem c7_zone_list_failure_aborts_witness :
    mainRun cfgPlain (fun _ => .error "Read timed out") (fun _ _ => .error "unreached")
        probe200 [0] = none
    ∧ mainProbedUrls cfgPlain (fun _ => .error "Read timed out")
        (fun _ _ => .error "unreached") = []
    ∧ mainFetchedZoneIds (fun _ => .error "Read timed out") = [] :=
  c7_zone_list_failure_aborts cfgPlain (.requestException "Read timed out")
    (fun _ => .error "Read timed out") (fun _ _ => .error "unreached") probe200 [0] rfl

/-- C8: a zone whose record fetch fails contributes nothing — the grouped
result equals the one computed from the successfully fetched zones alone —
and the failure is logged as a warning; the model is a total function, the
failure is absorbed rather than raised. -/
theorem c8_record_fetch_failure_skips_zone (cfg : Config) (probe : String → Nat)
    (order : List Nat) (zones : List Zone)
    (recordFetch : String → Except FetchError (List DNSRecord)) (z : Zone) (e : FetchError)
    (hz : z ∈ zones) (he : recordFetch z.id = .error e) :
    runGroups cfg probe zones recordFetch order
      = runGroups cfg probe (zones.filter (fun w => fetchOk (recordFetch w.id)))
          recordFetch order
    ∧ z ∉ zones.filter (fun w => fetchOk (recordFetch w.id))
    ∧ recordFetchWarning z.id e ∈ mainWarnings zones recordFetch := by
  refine ⟨?_, ?_, ?_⟩
  · unfold runGroups runLinks
    rw [buildWorklist_filter_ok]
  · intro hmem
    have hpz := (List.mem_filter.mp hmem).2
    simp [fetchOk, he] at hpz
  · unfold mainWarnings
    rw [List.mem_filterMap]
    exact ⟨z, hz, by simp [he]⟩

/-- Witness for `c8_record_fetch_failure_skips_zone`: zone `idA` fails,
zone `idB` succeeds. -/
theorem c8_record_fetch_failure_skips_zone_witness :
    runGroups cfgPlain probe200 zonesTwo rfFirstFails [0]
      = runGroups cfgPlain probe200 (zonesTwo.filter (fun w => fetchOk (rfFirstFails w.id)))
          rfFirstFails [0]
    ∧ (⟨"idA", "a.com"⟩ : Zone) ∉ zonesTwo.filter (fun w => fetchOk (rfFirstFails w.id))
    ∧ recordFetchWarning "idA" (.requestException "connection timed out")
        ∈ mainWarnings zonesTwo rfFirstFails :=
  c8_record_fetch_failure_skips_zone cfgPlain probe200 [0] zonesTwo rfFirstFails
    ⟨"idA", "a.com"⟩ (.requestException "connection timed out") (by decide) rfl

/-- C5 counterexample: `get_cloudflare_data` checks the `success` envelope
of page 1 only. With a first page carrying one record and announcing two
pages, and a second page whose envelope signals failure, the call returns
the partial result set of page 1 as a success instead of an error. -/
theorem c5_counterexample :
    fetchPageTwoFails 2 = .ok ⟨false, "Invalid request on page 2", [], 2⟩
    ∧ get_cloudflare_data fetchPageTwoFails = .ok [⟨"a.example.com", "A", "1.2.3.4"⟩] :=
  ⟨rfl, rfl⟩

/-- C5 (amended): a failure envelope (`success: false`, even on HTTP 200)
on the FIRST page of a paginated list operation is treated as an error
carrying the provider's error payload, and no result set is returned;
failure envelopes on later pages are not inspected — the loop concatenates
their `result` arrays regardless. -/
theorem c5_first_page_envelope_failure {α : Type}
    (fetch : Nat → Except String (Envelope α)) (d : Envelope α)
    (h1 : fetch 1 = .ok d) (h2 : d.success = false) :
    get_cloudflare_data fetch = .error (.envelope d.errors) := by
  simp [get_cloudflare_data, h1, h2]

/-- Witness for `c5_first_page_envelope_failure`: an authentication-failure
envelope on page 1. -/
theorem c5_first_page_envelope_failure_witness :
    get_cloudflare_data (fun _ => .ok (⟨false, "auth failure", [], 1⟩ : Envelope DNSRecord))
      = .error (.envelope "auth failure") :=
  c5_first_page_envelope_failure (fun _ => .ok (⟨false, "auth failure", [], 1⟩ : Envelope DNSRecord))
    ⟨false, "auth failure", [], 1⟩ rfl rfl

/-- C4 counterexample: the collected links follow the pool's completion
order, and `grouped_data` preserves it, so the same snapshot, the same
reachability and two completion orders that are permutations of each other
(both realizable by the pool) yield different GroupedResults. -/
theorem c4_counterexample :
    (([0, 1] : List Nat).Perm [1, 0])
    ∧ runGroups cfgPlain probe200 zonesOne rfTwo [0, 1]
        ≠ runGroups cfgPlain probe200 zonesOne rfTwo [1, 0] :=
  ⟨List.Perm.swap 1 0 [], by decide⟩

/-- C4 (amended): with the provider snapshot and reachability unchanged,
two runs whose completion orders are permutations of each other produce the
same links up to permutation: the flat collected lists are permutations,
within every zone group the entries are a permutation of each other, and
the set of zone-group keys is the same; the per-group ORDER (and the group
order) follows the non-deterministic completion order and is not
reproducible. -/
theorem c4_completion_order_determinism (cfg : Config) (probe : String → Nat)
    (zones : List Zone) (recordFetch : String → Except FetchError (List DNSRecord))
    (o1 o2 : List Nat) (h : o1.Perm o2) :
    (runLinks cfg probe zones recordFetch o1).Perm (runLinks cfg probe zones recordFetch o2)
    ∧ (∀ z, ((runLinks cfg probe zones recordFetch o1).filter
          (fun l => l.zone_name == z)).Perm
        ((runLinks cfg probe zones recordFetch o2).filter (fun l => l.zone_name == z)))
    ∧ (∀ z, z ∈ groupKeys (runLinks cfg probe zones recordFetch o1)
        ↔ z ∈ groupKeys (runLinks cfg probe zones recordFetch o2)) := by
  have hs : (scheduleList (buildWorklist zones recordFetch) o1).Perm
      (scheduleList (buildWorklist zones recordFetch) o2) := by
    unfold scheduleList
    exact h.filterMap _
  have hl : (runLinks cfg probe zones recordFetch o1).Perm
      (runLinks cfg probe zones recordFetch o2) := by
    unfold runLinks collectLinks
    exact hs.filterMap _
  refine ⟨hl, fun z => hl.filter _, fun z => ?_⟩
  rw [mem_groupKeys, mem_groupKeys]
  constructor
  · rintro ⟨l, hlm, hzn⟩
    exact ⟨l, hl.mem_iff.mp hlm, hzn⟩
  · rintro ⟨l, hlm, hzn⟩
    exact ⟨l, hl.mem_iff.mpr hlm, hzn⟩

/-- Witness for `c4_completion_order_determinism` at the two completion
orders of a two-record worklist. -/
theorem c4_completion_order_determinism_witness :
    (runLinks cfgPlain probe200 zonesOne rfTwo [0, 1]).Perm
      (runLinks cfgPlain probe200 zonesOne rfTwo [1, 0])
    ∧ (∀ z, ((runLinks cfgPlain probe200 zonesOne rfTwo [0, 1]).filter
          (fun l => l.zone_name == z)).Perm
        ((runLinks cfgPlain probe200 zonesOne rfTwo [1, 0]).filter
          (fun l => l.zone_name == z)))
    ∧ (∀ z, z ∈ groupKeys (runLinks cfgPlain probe200 zonesOne rfTwo [0, 1])
        ↔ z ∈ groupKeys (runLinks cfgPlain probe200 zonesOne rfTwo [1, 0])) :=
  c4_completion_order_determinism cfgPlain probe200 zonesOne rfTwo [0, 1] [1, 0]
    (List.Perm.swap 1 0 [])

end CFNav
